import Mathlib

/-!
Shallow embedding of the analytics core of the Steam games dashboard.

Embedded here, translated from the repository's Python/SQL source:
* the momentum comparison pipeline of `show_top_trending_games`
  (src/charts/fetch_top_trending_games.py, lines 196-250): the morning /
  afternoon CTE aggregation, the LEFT JOIN select with its COALESCE and
  delta expressions, the `ORDER BY delta DESC`, the pandas `fillna(0)` on
  the delta column, and the threshold classification lambda;
* the set-membership movement computation of `fetch_top_100_movement_data`
  (same file, lines 84-86) and its previous-window resolution (lines 66-72);
* the error-handling shape of the fetch functions (`try ... except Error:
  st.error(...); return <empty>`);
* the LAG window expressions of `fetch_player_count_trends`
  (src/charts/players_count_trends.py, lines 54-64) and
  `fetch_player_count_trends_hourly`
  (src/charts/players_count_trends_hourly.py, lines 42-57);
* the percentile quadrant classification of `show_price_vs_review_sentiment`
  (src/charts/price_vs_review_sentiment.py, lines 166-179);
* the relational semantics of the `ORDER BY metric DESC LIMIT n` top-N
  queries (`fetch_top_20_games`, `fetch_top_trending_games_data`).

SQL numeric columns are modelled as `ℚ`, SQL NULL as `Option`, result sets
as lists of rows, and id sets (Python `set`) as `Finset ℕ`.
-/

namespace SteamDash

/-- A raw `games_cleaned` row for one fixed `run_date`, restricted to the
columns the momentum query reads: `appid`, `run_hour`,
`median_playtime_2weeks` and `name`. -/
structure GRow where
  appid : ℕ
  run_hour : ℕ
  median_playtime : ℚ
  name : String
  deriving DecidableEq, Repr

/-- SQL `AVG` over the values of one `GROUP BY` group (groups are nonempty
by construction, so the `0/0` case never arises in the pipeline). -/
def listAvg (xs : List ℚ) : ℚ := xs.sum / (xs.length : ℚ)

/-- Lexicographic comparison on character lists by code point (binary string
collation), written so that it reduces inside the kernel. -/
def charListLt : List Char → List Char → Bool
  | _, [] => false
  | [], _ :: _ => true
  | a :: as, b :: bs =>
      if a.toNat < b.toNat then true
      else if b.toNat < a.toNat then false
      else charListLt as bs

/-- SQL `MAX` over the `name` strings of one group (binary collation). -/
def maxStr (xs : List String) : String :=
  xs.foldl (fun a b => if charListLt a.toList b.toList then b else a) ""

/-- One CTE of the momentum query: `SELECT appid, AVG(median_playtime_2weeks),
MAX(name) FROM games_cleaned WHERE run_hour BETWEEN lo AND hi GROUP BY appid`.
Output: one `(appid, avg, name)` triple per distinct appid in the window. -/
def windowAgg (lo hi : ℕ) (raw : List GRow) : List (ℕ × ℚ × String) :=
  let rows := raw.filter (fun r => decide (lo ≤ r.run_hour ∧ r.run_hour ≤ hi))
  ((rows.map (·.appid)).dedup).map (fun a =>
    let vs := rows.filter (fun r => decide (r.appid = a))
    (a, listAvg (vs.map (·.median_playtime)), maxStr (vs.map (·.name))))

/-- The `morning` CTE: window `run_hour BETWEEN 1 AND 12`
(`morning_start = 1`, `morning_end = 12`). -/
def morningAgg (raw : List GRow) : List (ℕ × ℚ × String) := windowAgg 1 12 raw

/-- The `afternoon` CTE: window `run_hour BETWEEN 13 AND 23`
(`afternoon_start = 13`, `afternoon_end = 23`). -/
def afternoonAgg (raw : List GRow) : List (ℕ × ℚ × String) := windowAgg 13 23 raw

/-- The set of appids having at least one raw row inside the hour window
`[lo, hi]` (the entity-id set of that window's snapshot set). -/
def windowIds (lo hi : ℕ) (raw : List GRow) : Finset ℕ :=
  ((raw.filter (fun r => decide (lo ≤ r.run_hour ∧ r.run_hour ≤ hi))).map
    (·.appid)).toFinset

/-- Entity ids of the previous (morning) window. -/
def prevWindowIds (raw : List GRow) : Finset ℕ := windowIds 1 12 raw

/-- Entity ids of the current (afternoon) window. -/
def currWindowIds (raw : List GRow) : Finset ℕ := windowIds 13 23 raw

/-- One row of the momentum SELECT: `m.appid, m.name, m.avg_morning,
COALESCE(a.avg_afternoon, 0) AS avg_afternoon,
(a.avg_afternoon - m.avg_morning) AS delta`.  `delta` is `Option ℚ` because
the un-COALESCEd SQL expression is NULL when the LEFT JOIN found no
afternoon row. -/
structure MRow where
  appid : ℕ
  name : String
  avg_morning : ℚ
  avg_afternoon : ℚ
  delta : Option ℚ
  deriving DecidableEq, Repr

/-- Lookup the aggregated value for an appid in a CTE result
(the `ON m.appid = a.appid` join condition; appids are distinct per CTE). -/
def lookupVal (a : ℕ) (l : List (ℕ × ℚ × String)) : Option ℚ :=
  (l.find? (fun p => decide (p.1 = a))).map (fun p => p.2.1)

/-- The momentum SELECT body: `FROM morning m LEFT JOIN afternoon a ON
m.appid = a.appid` with the COALESCE and delta expressions
(fetch_top_trending_games.py lines 215-222), before `ORDER BY`. -/
def momentumSelect (raw : List GRow) : List MRow :=
  (morningAgg raw).map (fun p =>
    match lookupVal p.1 (afternoonAgg raw) with
    | some va => ⟨p.1, p.2.2, p.2.1, va, some (va - p.2.1)⟩
    | none => ⟨p.1, p.2.2, p.2.1, 0, none⟩)

/-- Row comparison for `ORDER BY delta DESC` (MySQL sorts NULLs last under
DESC); the relation used by the modelling sort. -/
def deltaDescLe (r1 r2 : MRow) : Bool :=
  match r1.delta, r2.delta with
  | some x, some y => decide (y ≤ x)
  | some _, none => true
  | none, some _ => false
  | none, none => true

/-- The momentum SELECT with its `ORDER BY delta DESC` applied. -/
def momentumSorted (raw : List GRow) : List MRow :=
  (momentumSelect raw).insertionSort (fun a b => deltaDescLe a b = true)

/-- Movement label assigned by the classification lambda. -/
inductive MLabel where
  | Rising
  | Stable
  | Falling
  deriving DecidableEq, Repr

/-- The classification lambda of fetch_top_trending_games.py lines 248-249:
`'Rising' if pd.notna(x) and x > _RISING_THRESHOLD else 'Falling' if
pd.notna(x) and x < _FALLING_THRESHOLD else 'Stable'`.  A missing value
(`pd.notna x = false`, modelled as `none`) falls through to `Stable`. -/
def classifyStatus (risingT fallingT : ℚ) (x : Option ℚ) : MLabel :=
  match x with
  | some v =>
      if risingT < v then MLabel.Rising
      else if v < fallingT then MLabel.Falling
      else MLabel.Stable
  | none => MLabel.Stable

/-- One row of the final momentum dataframe after the pandas
post-processing: `delta` has been `fillna(0)`-coalesced and a `status`
column appended. -/
structure CRow where
  appid : ℕ
  name : String
  avg_morning : ℚ
  avg_afternoon : ℚ
  delta : ℚ
  status : MLabel
  deriving DecidableEq, Repr

/-- The full momentum pipeline of `show_top_trending_games`: run the SQL
query (aggregate, LEFT JOIN, ORDER BY delta DESC), then
`momentum_df['delta'].fillna(0)` and the status classification with
`_RISING_THRESHOLD = 200`, `_FALLING_THRESHOLD = -200`. -/
def momentumPipeline (raw : List GRow) : List CRow :=
  (momentumSorted raw).map (fun r =>
    ⟨r.appid, r.name, r.avg_morning, r.avg_afternoon, r.delta.getD 0,
      classifyStatus 200 (-200) (some (r.delta.getD 0))⟩)

/-- Movement-set computation of `fetch_top_100_movement_data`
(fetch_top_trending_games.py lines 84-86): `rising = current - prev`,
`holding = current & prev`, `falling = prev - current` on appid sets. -/
def movementSets (current_appids prev_appids : Finset ℕ) :
    Finset ℕ × Finset ℕ × Finset ℕ :=
  (current_appids \ prev_appids, current_appids ∩ prev_appids,
    prev_appids \ current_appids)

/-! ### Player-count trend window expressions
(players_count_trends.py and players_count_trends_hourly.py) -/

/-- One output row of the trend SELECT: `players_k`, `LAG(players_k) OVER
(PARTITION BY appid ORDER BY run_date) AS prev_players_k`, `player_diff_k`
and `pct_change` (players_count_trends.py lines 54-64); the hourly variant
computes the same expressions over `current_players` ordered by
`run_date, run_hour`. -/
structure PCRow where
  players_k : ℚ
  prev_players_k : Option ℚ
  player_diff_k : Option ℚ
  pct_change : Option ℚ
  deriving DecidableEq, Repr

/-- MySQL `ROUND(x, 2)`: round to two decimal places, halves away from
zero. -/
def rnd2 (x : ℚ) : ℚ :=
  if 0 ≤ x then ((⌊x * 100 + 1 / 2⌋ : ℤ) : ℚ) / 100
  else -(((⌊-(x * 100) + 1 / 2⌋ : ℤ) : ℚ) / 100)

/-- The `pct_change` SELECT expression: `ROUND((cur - LAG(...)) * 100.0 /
NULLIF(LAG(...), 0), 2)`.  SQL NULL propagates: a NULL lag, or the NULL
produced by `NULLIF(lag, 0)`, makes the whole expression NULL. -/
def pct_change_expr (cur : ℚ) (prev : Option ℚ) : Option ℚ :=
  match prev with
  | none => none
  | some p => if p = 0 then none else some (rnd2 ((cur - p) * 100 / p))

/-- Pair each value of one `PARTITION BY appid` partition (already in
`ORDER BY` order) with its `LAG`: the first row has lag NULL. -/
def lagPairs (vals : List ℚ) : List (ℚ × Option ℚ) :=
  vals.zip (none :: vals.map some)

/-- The full SELECT row list for one partition: value, lag, difference and
rounded percent change. -/
def trendRowsFor (vals : List ℚ) : List PCRow :=
  (lagPairs vals).map (fun cp =>
    ⟨cp.1, cp.2, cp.2.map (fun p => cp.1 - p), pct_change_expr cp.1 cp.2⟩)

/-- The whole window-function query: partition the fetched `(appid, value)`
rows by appid (rows arrive in `ORDER BY` order within each partition) and
apply the LAG expressions per partition. -/
def trendCompute (rows : List (ℕ × ℚ)) : List (ℕ × PCRow) :=
  ((rows.map (fun r => r.1)).dedup).flatMap (fun a =>
    (trendRowsFor ((rows.filter (fun r => decide (r.1 = a))).map
      (fun r => r.2))).map (fun row => (a, row)))

/-- The `','.join(map(str, appids))` interpolation building the SQL
`IN (...)` clause. -/
def appidsStr (appids : List ℕ) : String :=
  ",".intercalate (appids.map (fun a => toString a))

/-- The interpolated daily trend query of `fetch_player_count_trends`. -/
def dailyTrendQuery (appids : List ℕ) : String :=
  "SELECT appid, run_date, players_k, LAG ... FROM daily_totals WHERE appid IN (" ++
    appidsStr appids ++ ") ORDER BY appid, run_date"

/-- The interpolated hourly trend query of
`fetch_player_count_trends_hourly`. -/
def hourlyTrendQuery (appids : List ℕ) : String :=
  "SELECT appid, run_date, run_hour, current_players, LAG ... FROM player_count WHERE appid IN (" ++
    appidsStr appids ++ ") ORDER BY appid, run_date, run_hour"

/-- `fetch_player_count_trends` (players_count_trends.py lines 32-73).
Result: (queries issued to the data source, error messages displayed,
result rows).  `if not appids: return pd.DataFrame()` short-circuits before
the `try` block, issuing no query; a data-source `Error` is caught,
displayed via `st.error` and turned into an empty frame. -/
def fetch_player_count_trends (appids : List ℕ)
    (src : Except String (List (ℕ × ℚ))) :
    List String × List String × List (ℕ × PCRow) :=
  if appids.isEmpty then ([], [], [])
  else
    match src with
    | Except.ok rows => ([dailyTrendQuery appids], [], trendCompute rows)
    | Except.error e =>
        ([dailyTrendQuery appids],
          ["Error fetching player count trends: " ++ e], [])

/-- `fetch_player_count_trends_hourly` (players_count_trends_hourly.py
lines 29-63): identical shape over `player_count` hourly rows. -/
def fetch_player_count_trends_hourly (appids : List ℕ)
    (src : Except String (List (ℕ × ℚ))) :
    List String × List String × List (ℕ × PCRow) :=
  if appids.isEmpty then ([], [], [])
  else
    match src with
    | Except.ok rows => ([hourlyTrendQuery appids], [], trendCompute rows)
    | Except.error e =>
        ([hourlyTrendQuery appids],
          ["Error fetching hourly player count trends: " ++ e], [])

/-! ### Error-handling shape of the trending-games fetchers
(fetch_top_trending_games.py) -/

/-- `fetch_top_trending_games_data` (lines 10-31), error behaviour: the
`try` body delegates the query to the data source (`pd.read_sql`); on
`Error` the function catches it, displays `st.error(...)` and returns an
empty frame.  The outer `Except` is the channel an uncaught exception would
use; the value is (displayed error messages, result rows). -/
def fetch_top_trending_games_data (α : Type) (src : Except String (List α)) :
    Except String (List String × List α) :=
  match src with
  | Except.ok rows => Except.ok ([], rows)
  | Except.error e => Except.ok (["Error fetching trending games: " ++ e], [])

/-- The dictionary returned by `fetch_top_100_movement_data`. -/
structure MovementData where
  rising : Finset ℕ
  holding : Finset ℕ
  falling : Finset ℕ
  current_df : List (ℕ × String)
  prev_df : List (ℕ × String)
  deriving DecidableEq

/-- `fetch_top_100_movement_data` (lines 52-97): two queries inside one
`try`; an `Error` from either is caught, displayed, and replaced by the
all-empty dictionary.  On success the appid sets are the distinct appids of
each result and the three movement sets are computed from them
(lines 84-86). -/
def fetch_top_100_movement_data
    (curSrc prevSrc : Except String (List (ℕ × String))) :
    Except String (List String × MovementData) :=
  match curSrc, prevSrc with
  | Except.ok c, Except.ok p =>
      let current_appids := (c.map (fun r => r.1)).toFinset
      let prev_appids := (p.map (fun r => r.1)).toFinset
      Except.ok ([], ⟨current_appids \ prev_appids,
        current_appids ∩ prev_appids, prev_appids \ current_appids, c, p⟩)
  | Except.error e, _ =>
      Except.ok (["Error fetching movement data: " ++ e], ⟨∅, ∅, ∅, [], []⟩)
  | Except.ok _, Except.error e =>
      Except.ok (["Error fetching movement data: " ++ e], ⟨∅, ∅, ∅, [], []⟩)

/-- Previous-window resolution of `fetch_top_100_movement_data`
(lines 66-72): `prev_hour = run_hour - 1`; if negative, wrap to hour 23 of
the previous calendar day (`strptime` / `timedelta(days=1)`, modelled as a
day index decrement). -/
def resolvePrevWindow (run_date run_hour : ℤ) : ℤ × ℤ :=
  let prev_hour := run_hour - 1
  if prev_hour < 0 then (run_date - 1, 23) else (run_date, prev_hour)

/-! ### Top-N selection semantics (`ORDER BY metric DESC LIMIT n`) -/

/-- One output row of `fetch_top_20_games` (players_count_trends.py
lines 9-28): `appid`, `name`, `total_players_k`; the same relational model
covers `fetch_top_trending_games_data`'s `ORDER BY avg_players_k DESC
LIMIT %s`. -/
structure TRow where
  appid : ℕ
  name : String
  total_players_k : ℚ
  deriving DecidableEq, Repr

/-- The output rows are in descending metric order. -/
def sortedDescPK (out : List TRow) : Prop :=
  out.Chain' (fun a b => b.total_players_k ≤ a.total_players_k)

/-- Relational semantics of `ORDER BY total_players_k DESC LIMIT n`: a
valid output is any maximal-by-metric selection of `min n (count)` rows in
descending metric order.  SQL fixes neither the order among equal metric
values nor which boundary-tied rows enter the limit, so this is a relation,
not a function. -/
def validTopN (rows : List TRow) (n : ℕ) (out : List TRow) : Prop :=
  out.length = min n rows.length ∧ sortedDescPK out ∧
  ∃ rest, List.Perm (out ++ rest) rows ∧
    ∀ x ∈ rest, ∀ y ∈ out, x.total_players_k ≤ y.total_players_k

/-- The deterministic tie-break the claim asserts: rows with equal metric
values appear in ascending appid order. -/
def tiesAscendingAppid (out : List TRow) : Prop :=
  out.Chain' (fun a b => a.total_players_k = b.total_players_k → a.appid < b.appid)

/-! ### Percentile quadrant classification
(price_vs_review_sentiment.py lines 166-179) -/

/-- One row of the price/sentiment dataframe after the sentiment
computation: `appid`, `name`, `price_usd`, `sentiment_pct`. -/
structure PRow where
  appid : ℕ
  name : String
  price_usd : ℚ
  sentiment_pct : ℚ
  deriving DecidableEq, Repr

/-- `pandas.Series.quantile(q)` with the default linear interpolation:
sort the values, take position `q * (n - 1)`, and interpolate between the
neighbouring order statistics. -/
def quantileLinear (xs : List ℚ) (q : ℚ) : ℚ :=
  let s := xs.insertionSort (fun a b => a ≤ b)
  let pos := q * ((s.length : ℚ) - 1)
  let i := (Int.floor pos).toNat
  let lo := s.getD i 0
  let hi := s.getD (i + 1) lo
  lo + (pos - (i : ℚ)) * (hi - lo)

/-- `data[(data['sentiment_pct'] >= quantile(.75)) &
(data['price_usd'] <= quantile(.25))]` — the bargain quadrant filter. -/
def bargains (data : List PRow) : List PRow :=
  data.filter (fun r =>
    decide (quantileLinear (data.map (fun x => x.sentiment_pct)) (3 / 4) ≤
        r.sentiment_pct) &&
      decide (r.price_usd ≤
        quantileLinear (data.map (fun x => x.price_usd)) (1 / 4)))

/-- `data[(data['sentiment_pct'] <= quantile(.25)) &
(data['price_usd'] >= quantile(.75))]` — the overpriced quadrant filter. -/
def overpriced (data : List PRow) : List PRow :=
  data.filter (fun r =>
    decide (r.sentiment_pct ≤
        quantileLinear (data.map (fun x => x.sentiment_pct)) (1 / 4)) &&
      decide (quantileLinear (data.map (fun x => x.price_usd)) (3 / 4) ≤
        r.price_usd))

/-! ### Helper lemmas about the momentum query -/

lemma windowAgg_map_fst (lo hi : ℕ) (raw : List GRow) :
    (windowAgg lo hi raw).map (fun p => p.1) =
      ((raw.filter (fun r =>
        decide (lo ≤ r.run_hour ∧ r.run_hour ≤ hi))).map (·.appid)).dedup := by
  unfold windowAgg
  rw [List.map_map]
  exact List.map_id'' (fun a => rfl) _

lemma momentumSelect_map_appid (raw : List GRow) :
    (momentumSelect raw).map (fun r => r.appid) =
      (morningAgg raw).map (fun p => p.1) := by
  unfold momentumSelect
  rw [List.map_map]
  apply List.map_congr_left
  intro p _
  rcases h : lookupVal p.1 (afternoonAgg raw) with _ | v <;>
    simp [Function.comp, h]

lemma dedup_toFinset {α : Type} [DecidableEq α] (l : List α) :
    l.dedup.toFinset = l.toFinset := by
  apply List.toFinset.ext
  intro x
  simp [List.mem_dedup]

lemma afternoonAgg_fst_mem {raw : List GRow} {p : ℕ × ℚ × String}
    (hp : p ∈ afternoonAgg raw) : p.1 ∈ currWindowIds raw := by
  have h1 : p.1 ∈ (afternoonAgg raw).map (fun q => q.1) :=
    List.mem_map_of_mem _ hp
  rw [afternoonAgg, windowAgg_map_fst] at h1
  rw [currWindowIds, windowIds]
  rw [List.mem_dedup] at h1
  exact List.mem_toFinset.mpr h1

lemma lookupVal_some_mem {a : ℕ} {l : List (ℕ × ℚ × String)} {v : ℚ}
    (h : lookupVal a l = some v) : ∃ q ∈ l, q.1 = a := by
  unfold lookupVal at h
  rcases hfind : l.find? (fun p => decide (p.1 = a)) with _ | q
  · rw [hfind] at h; exact absurd h (by simp)
  · exact ⟨q, List.mem_of_find?_eq_some hfind,
      by simpa using List.find?_some hfind⟩

lemma momentumSelect_delta_none {raw : List GRow} {s : MRow}
    (hs : s ∈ momentumSelect raw) (habs : s.appid ∉ currWindowIds raw) :
    s.delta = none := by
  unfold momentumSelect at hs
  obtain ⟨p, hp, hps⟩ := List.mem_map.mp hs
  rcases hlk : lookupVal p.1 (afternoonAgg raw) with _ | va
  · simp only [hlk] at hps
    rw [← hps]
  · exfalso
    simp only [hlk] at hps
    obtain ⟨q, hq, hqa⟩ := lookupVal_some_mem hlk
    apply habs
    rw [← hps]
    exact hqa ▸ afternoonAgg_fst_mem hq

/-! ### Claims C1-C4 -/

/-- C1, amended: the momentum comparison output does NOT realise a full
outer join; its entity_id set equals the PREVIOUS (morning) window's
entity_id set, with exactly one record per such entity — the
`LEFT JOIN afternoon` keeps every morning entity and drops every entity
present only in the current (afternoon) window. -/
theorem momentum_output_ids_eq_previous_window (raw : List GRow) :
    ((momentumPipeline raw).map (fun r => r.appid)).Nodup ∧
    ((momentumPipeline raw).map (fun r => r.appid)).toFinset =
      prevWindowIds raw := by
  have hmap : (momentumPipeline raw).map (fun r => r.appid) =
      (momentumSorted raw).map (fun r => r.appid) := by
    unfold momentumPipeline
    rw [List.map_map]
    rfl
  have hperm : List.Perm ((momentumSorted raw).map (fun r => r.appid))
      ((momentumSelect raw).map (fun r => r.appid)) :=
    (List.perm_insertionSort _ _).map _
  have hsel : (momentumSelect raw).map (fun r => r.appid) =
      ((raw.filter (fun r =>
        decide (1 ≤ r.run_hour ∧ r.run_hour ≤ 12))).map (·.appid)).dedup := by
    rw [momentumSelect_map_appid, morningAgg, windowAgg_map_fst]
  constructor
  · rw [hmap, hperm.nodup_iff, hsel]
    exact List.nodup_dedup _
  · rw [hmap, List.toFinset_eq_of_perm _ _ hperm, hsel, dedup_toFinset]
    rfl

/-- C1, counterexample: with a single raw row at hour 14 the entity is
present only in the current (afternoon) window; the momentum output is
empty, so its entity_id set differs from the union of the two windows'
entity_id sets — outer-join completeness fails on the code. -/
theorem momentum_union_claim_cex :
    ((momentumPipeline [⟨7, 14, 100, "g"⟩]).map (fun r => r.appid)).toFinset ≠
      prevWindowIds [⟨7, 14, 100, "g"⟩] ∪ currWindowIds [⟨7, 14, 100, "g"⟩] := by
  decide

/-- C2, amended: an entity present only in the previous (morning) window
gets a NULL SQL delta (the un-COALESCEd `a.avg_afternoon - m.avg_morning`),
which `fillna(0)` turns into delta `0` — not `-previous_value`; it is then
classified Stable. (An entity present only in the current window yields no
record at all, see C1.) -/
theorem momentum_prev_only_delta_zero (raw : List GRow) (r : CRow)
    (hr : r ∈ momentumPipeline raw) (habs : r.appid ∉ currWindowIds raw) :
    r.delta = 0 ∧ r.status = MLabel.Stable := by
  unfold momentumPipeline at hr
  obtain ⟨s, hs, rfl⟩ := List.mem_map.mp hr
  have hs' : s ∈ momentumSelect raw := (List.mem_insertionSort _).mp hs
  have habs' : s.appid ∉ currWindowIds raw := habs
  have hd : s.delta = none := momentumSelect_delta_none hs' habs'
  constructor
  · show s.delta.getD 0 = 0
    rw [hd]
    rfl
  · show classifyStatus 200 (-200) (some (s.delta.getD 0)) = MLabel.Stable
    rw [hd]
    decide

/-- C2, counterexample: a single raw row at hour 2 puts entity 7 only in
the previous (morning) window with value 500; the pipeline gives it delta
`0`, not `-500` as the claim's coalesced-subtraction semantics predicts. -/
theorem momentum_prev_only_delta_cex :
    momentumPipeline [⟨7, 2, 500, "g"⟩] =
      [⟨7, "g", 500, 0, 0, MLabel.Stable⟩] ∧ (0 : ℚ) ≠ -500 := by
  constructor
  · simp [momentumPipeline, momentumSorted, momentumSelect, morningAgg,
      afternoonAgg, windowAgg, listAvg, maxStr, charListLt, lookupVal,
      classifyStatus, List.insertionSort, List.orderedInsert, List.dedup,
      List.filter]
    norm_num
  · norm_num

/-- C2, witness for `momentum_prev_only_delta_zero` at the concrete input
`[⟨7, 2, 500, "g"⟩]` (entity 7 present only in the morning window). -/
theorem momentum_prev_only_delta_zero_witness :
    (⟨7, "g", 500, 0, 0, MLabel.Stable⟩ : CRow).delta = 0 ∧
    (⟨7, "g", 500, 0, 0, MLabel.Stable⟩ : CRow).status = MLabel.Stable :=
  momentum_prev_only_delta_zero [⟨7, 2, 500, "g"⟩]
    ⟨7, "g", 500, 0, 0, MLabel.Stable⟩
    (by rw [momentum_prev_only_delta_cex.1]; exact List.mem_singleton_self _)
    (by decide)

/-- C3, confirmed: with rising threshold `200` and falling threshold
`-200`, the classification lambda labels a record Rising exactly when
`delta > 200` and Falling exactly when `delta < -200` (strict
inequalities); deltas of exactly `200` and exactly `-200` fall into the
Stable band. -/
theorem classify_threshold_boundary (x : ℚ) :
    (classifyStatus 200 (-200) (some x) = MLabel.Rising ↔ 200 < x) ∧
    (classifyStatus 200 (-200) (some x) = MLabel.Falling ↔ x < -200) ∧
    classifyStatus 200 (-200) (some 200) = MLabel.Stable ∧
    classifyStatus 200 (-200) (some (-200)) = MLabel.Stable := by
  refine ⟨?_, ?_, by decide, by decide⟩ <;>
  · simp only [classifyStatus]
    split_ifs with h1 h2 <;> simp_all <;> linarith

/-- C3, witness for `classify_threshold_boundary` at `delta = 201`. -/
theorem classify_threshold_boundary_witness :
    (classifyStatus 200 (-200) (some 201) = MLabel.Rising ↔ (200 : ℚ) < 201) ∧
    (classifyStatus 200 (-200) (some 201) = MLabel.Falling ↔ (201 : ℚ) < -200) ∧
    classifyStatus 200 (-200) (some 200) = MLabel.Stable ∧
    classifyStatus 200 (-200) (some (-200)) = MLabel.Stable :=
  classify_threshold_boundary 201

/-- C4, confirmed: `rising = current - prev`, `holding = current ∩ prev`,
`falling = prev - current` are pairwise disjoint and their union is
`current ∪ prev`. -/
theorem movement_sets_partition (current_appids prev_appids : Finset ℕ) :
    Disjoint (movementSets current_appids prev_appids).1
      (movementSets current_appids prev_appids).2.1 ∧
    Disjoint (movementSets current_appids prev_appids).1
      (movementSets current_appids prev_appids).2.2 ∧
    Disjoint (movementSets current_appids prev_appids).2.1
      (movementSets current_appids prev_appids).2.2 ∧
    (movementSets current_appids prev_appids).1 ∪
      (movementSets current_appids prev_appids).2.1 ∪
      (movementSets current_appids prev_appids).2.2 =
      current_appids ∪ prev_appids := by
  unfold movementSets
  refine ⟨?_, ?_, ?_, ?_⟩
  · rw [Finset.disjoint_left]
    intro a ha hb
    simp only [Finset.mem_sdiff, Finset.mem_inter] at ha hb
    tauto
  · rw [Finset.disjoint_left]
    intro a ha hb
    simp only [Finset.mem_sdiff] at ha hb
    tauto
  · rw [Finset.disjoint_left]
    intro a ha hb
    simp only [Finset.mem_sdiff, Finset.mem_inter] at ha hb
    tauto
  · ext a
    simp only [Finset.mem_union, Finset.mem_sdiff, Finset.mem_inter]
    tauto

/-- C5, amended: in the trend window expressions, `pct_change` is NULL
exactly when the lagged previous value is NULL or `0` (never infinity,
never a coalesced zero); when the previous value is present and nonzero,
`pct_change` is `delta / previous * 100` rounded to two decimal places by
the SQL `ROUND(..., 2)`. -/
theorem trend_pct_change_null_policy (vals : List ℚ) (r : PCRow)
    (hr : r ∈ trendRowsFor vals) :
    (r.pct_change = none ↔
      r.prev_players_k = none ∨ r.prev_players_k = some 0) ∧
    (∀ p : ℚ, r.prev_players_k = some p → p ≠ 0 →
      r.player_diff_k = some (r.players_k - p) ∧
      r.pct_change = some (rnd2 ((r.players_k - p) * 100 / p))) := by
  unfold trendRowsFor at hr
  obtain ⟨cp, hcp, rfl⟩ := List.mem_map.mp hr
  rcases cp with ⟨c, pv⟩
  rcases pv with _ | p
  · simp [pct_change_expr]
  · by_cases hp : p = 0 <;> simp [pct_change_expr, hp]

/-- C5, counterexample: with consecutive values `3, 4` the second row has
`delta = 1`, `previous = 3`; the code's `pct_change` is the rounded
`33.33`, not the exact `delta / previous * 100 = 100/3` the claim states. -/
theorem trend_pct_change_rounding_cex :
    trendRowsFor [3, 4] =
      [⟨3, none, none, none⟩, ⟨4, some 3, some 1, some (3333 / 100)⟩] ∧
    (3333 / 100 : ℚ) ≠ (4 - 3) / 3 * 100 := by
  constructor
  · norm_num [trendRowsFor, lagPairs, pct_change_expr, rnd2]
  · norm_num

/-- C5, witness for `trend_pct_change_null_policy` at `vals = [3, 4]` and
the second output row. -/
theorem trend_pct_change_null_policy_witness :
    ((⟨4, some 3, some 1, some (3333 / 100)⟩ : PCRow).pct_change = none ↔
      (⟨4, some 3, some 1, some (3333 / 100)⟩ : PCRow).prev_players_k = none ∨
      (⟨4, some 3, some 1, some (3333 / 100)⟩ : PCRow).prev_players_k = some 0) ∧
    (∀ p : ℚ,
      (⟨4, some 3, some 1, some (3333 / 100)⟩ : PCRow).prev_players_k = some p →
      p ≠ 0 →
      (⟨4, some 3, some 1, some (3333 / 100)⟩ : PCRow).player_diff_k =
        some ((⟨4, some 3, some 1, some (3333 / 100)⟩ : PCRow).players_k - p) ∧
      (⟨4, some 3, some 1, some (3333 / 100)⟩ : PCRow).pct_change =
        some (rnd2
          (((⟨4, some 3, some 1, some (3333 / 100)⟩ : PCRow).players_k - p) *
            100 / p))) :=
  trend_pct_change_null_policy [3, 4] ⟨4, some 3, some 1, some (3333 / 100)⟩
    (by
      have h : trendRowsFor [3, 4] =
          [⟨3, none, none, none⟩, ⟨4, some 3, some 1, some (3333 / 100)⟩] := by
        norm_num [trendRowsFor, lagPairs, pct_change_expr, rnd2]
      rw [h]
      simp)

/-- C6, confirmed: quadrant membership is the conjunction of both
percentile conditions — `bargains` keeps exactly the entities with
sentiment at or above the sentiment P75 AND price at or below the price
P25, `overpriced` keeps exactly those with sentiment at or below P25 AND
price at or above P75, and an entity failing the sentiment condition is
excluded from `bargains` even if its price qualifies. -/
theorem quadrant_conjunction (data : List PRow) (e : PRow) :
    (e ∈ bargains data ↔ e ∈ data ∧
      quantileLinear (data.map (fun x => x.sentiment_pct)) (3 / 4) ≤
        e.sentiment_pct ∧
      e.price_usd ≤ quantileLinear (data.map (fun x => x.price_usd)) (1 / 4)) ∧
    (e ∈ overpriced data ↔ e ∈ data ∧
      e.sentiment_pct ≤
        quantileLinear (data.map (fun x => x.sentiment_pct)) (1 / 4) ∧
      quantileLinear (data.map (fun x => x.price_usd)) (3 / 4) ≤ e.price_usd) ∧
    (¬ quantileLinear (data.map (fun x => x.sentiment_pct)) (3 / 4) ≤
        e.sentiment_pct →
      e ∉ bargains data) := by
  refine ⟨?_, ?_, ?_⟩
  · simp [bargains, List.mem_filter, and_assoc]
  · simp [overpriced, List.mem_filter, and_assoc]
  · intro hs hb
    simp [bargains, List.mem_filter] at hb
    tauto

/-- C6, witness for `quadrant_conjunction` on the reference data set
`(price, sentiment) = (1,90), (2,80), (10,95), (20,10)`: the `(1,90)`
entity satisfies the price condition (`1 ≤ P25 = 1.75`) but not the
sentiment condition (`90 < P75 = 91.25`), so it is excluded from the
bargain quadrant. -/
theorem quadrant_conjunction_witness :
    (⟨1, "w", 1, 90⟩ : PRow) ∉ bargains
      [⟨1, "w", 1, 90⟩, ⟨2, "x", 2, 80⟩, ⟨3, "y", 10, 95⟩, ⟨4, "z", 20, 10⟩] :=
  (quadrant_conjunction
    [⟨1, "w", 1, 90⟩, ⟨2, "x", 2, 80⟩, ⟨3, "y", 10, 95⟩, ⟨4, "z", 20, 10⟩]
    ⟨1, "w", 1, 90⟩).2.2 (by
      norm_num [quantileLinear, List.insertionSort, List.orderedInsert]
      norm_num [Int.toNat])

/-- C7, counterexample: on a data-source failure
`fetch_top_trending_games_data` does not propagate the error upward — it
returns normally (the caught-and-displayed empty result), not the
propagated `DataSourceError`. -/
theorem fetch_error_propagation_cex :
    fetch_top_trending_games_data ℕ (Except.error "connection refused") ≠
      Except.error "connection refused" := by
  simp [fetch_top_trending_games_data]

/-- C7, amended: on a data-source failure the fetch functions catch the
error, surface it as a displayed error message (embedding the original
error text), and return an empty result to the caller — no retry, no
partial data, no substituted default rows — rather than re-raising it. -/
theorem fetch_error_caught (e : String)
    (src2 : Except String (List (ℕ × String))) :
    fetch_top_trending_games_data ℕ (Except.error e) =
      Except.ok (["Error fetching trending games: " ++ e], []) ∧
    fetch_top_100_movement_data (Except.error e) src2 =
      Except.ok (["Error fetching movement data: " ++ e], ⟨∅, ∅, ∅, [], []⟩) := by
  constructor
  · rfl
  · rfl

/-- C8, confirmed: the caller of the hourly comparison resolves the cyclic
boundary — for `run_hour = 0` the previous window is hour 23 of the
previous calendar day, and for `run_hour > 0` it is hour `run_hour - 1` of
the same date. -/
theorem resolve_prev_window_cyclic (run_date run_hour : ℤ) :
    (run_hour = 0 →
      resolvePrevWindow run_date run_hour = (run_date - 1, 23)) ∧
    (0 < run_hour →
      resolvePrevWindow run_date run_hour = (run_date, run_hour - 1)) := by
  constructor
  · intro h
    subst h
    rfl
  · intro h
    unfold resolvePrevWindow
    rw [if_neg (by omega)]

/-- C8, witness for `resolve_prev_window_cyclic` at day 100, hour 0. -/
theorem resolve_prev_window_cyclic_witness :
    resolvePrevWindow 100 0 = (100 - 1, 23) :=
  (resolve_prev_window_cyclic 100 0).1 rfl

/-- C9, counterexample: the `ORDER BY metric DESC LIMIT n` semantics does
not determine tie order by ascending appid — an output listing the tied
rows in descending appid order is also a valid query result, so the claimed
deterministic ascending-appid tie-break fails on the code. -/
theorem topn_tiebreak_cex :
    validTopN [⟨1, "a", 5⟩, ⟨2, "b", 5⟩] 2 [⟨2, "b", 5⟩, ⟨1, "a", 5⟩] ∧
    ¬ tiesAscendingAppid [⟨2, "b", 5⟩, ⟨1, "a", 5⟩] := by
  constructor
  · refine ⟨rfl, ?_, [], ?_, by simp⟩
    · simp [sortedDescPK]
    · simpa using List.Perm.swap (⟨1, "a", 5⟩ : TRow) ⟨2, "b", 5⟩ []
  · simp [tiesAscendingAppid]

/-- C9, amended: any valid result of the top-N query has `min n count`
rows in descending metric order, and when `n` is at least the candidate
count every candidate is returned (in descending metric order) rather than
failing; the order among equal metric values is unspecified (no
ascending-appid tie-break). -/
theorem topn_semantics (rows : List TRow) (n : ℕ) (out : List TRow)
    (h : validTopN rows n out) :
    out.length = min n rows.length ∧ sortedDescPK out ∧
    (rows.length ≤ n → List.Perm out rows) := by
  obtain ⟨hlen, hsort, rest, hperm, -⟩ := h
  refine ⟨hlen, hsort, fun hle => ?_⟩
  have h1 : out.length + rest.length = rows.length := by
    simpa using hperm.length_eq
  rw [min_eq_right hle] at hlen
  have hnil : rest = [] := List.eq_nil_of_length_eq_zero (by omega)
  subst hnil
  simpa using hperm

/-- C9, witness for `topn_semantics`: one candidate, `n = 2`. -/
theorem topn_semantics_witness :
    ([(⟨1, "a", 5⟩ : TRow)].length = min 2 [(⟨1, "a", 5⟩ : TRow)].length) ∧
    sortedDescPK [(⟨1, "a", 5⟩ : TRow)] ∧
    ([(⟨1, "a", 5⟩ : TRow)].length ≤ 2 →
      List.Perm [(⟨1, "a", 5⟩ : TRow)] [(⟨1, "a", 5⟩ : TRow)]) :=
  topn_semantics [⟨1, "a", 5⟩] 2 [⟨1, "a", 5⟩]
    ⟨rfl, by simp [sortedDescPK], [], by simp, by simp⟩

/-- C10, confirmed: called with an empty appid list, both trend fetchers
return the empty result immediately, issuing no query to the data source
(the query log is empty) regardless of the data source's behaviour. -/
theorem empty_appids_no_query (src1 src2 : Except String (List (ℕ × ℚ))) :
    fetch_player_count_trends [] src1 = ([], [], []) ∧
    fetch_player_count_trends_hourly [] src2 = ([], [], []) := by
  constructor <;> rfl

end SteamDash
